import Mathlib

/-!
Shallow embedding of the streaming request gateway of the `ai-fiesta`
repository (FastAPI backend under `backend/app/`), covering the credit
ledger (`services/user_service.py`), the streaming orchestrator and the
entitlement checks of `routers/chat.py`, the stream emulation utility
(`app/utils/stream_emulation.py`), the provider factory
(`backend/app/llm/factory.py`) and the credit-multiplier table
(`backend/app/models.py`).

Python strings are modelled as their character sequences (`List Char`);
Python floats as exact rationals (`ℚ`) — every multiplier in the source
table is an exact decimal with at most five fractional digits, on which
the source's `round(·, 6)` is the identity and float rounding does not
affect any comparison appearing in the claims; Python `int(x)` on the
non-negative values used here is `⌊x⌋`.
-/

namespace AiFiesta

/-- Python `str`, modelled as its sequence of characters. -/
abbrev Str := List Char

/-- `s.lower()` (ASCII case folding, which covers every keyword the source
matches on). -/
def lowerStr (s : Str) : Str := s.map Char.toLower

/-- Python `needle in hay` substring test. -/
def strContains (hay needle : Str) : Bool :=
  hay.tails.any (fun t => needle.isPrefixOf t)

/-- `not chunk_text or not chunk_text.strip()`: the string is empty or
consists of whitespace only. -/
def isBlank (s : Str) : Bool := s.all Char.isWhitespace

/-- Python `int(x)` for the non-negative rationals used by the source:
truncation towards zero, which on non-negatives is the floor. -/
def pyInt (q : ℚ) : Int := ⌊q⌋

/-!
## Credit ledger — `backend/app/services/user_service.py`

`Subscription` keeps the columns of the `subscriptions` row that the
gateway core reads or writes: status, model allow-list and the credit
balance triple.
-/

structure Subscription where
  status : Str
  allowed_models : List Str
  credits_limit : Int
  credits_used : Int
  credits_remaining : Int
deriving DecidableEq, Repr

inductive DeductError
  /-- `ValueError("Insufficient credits: ...")` raised at
  `user_service.py:95`. -/
  | insufficientCredits
  /-- `scalar_one()` raising `NoResultFound` when the tenant has no
  subscription row. -/
  | noSubscriptionRow
deriving DecidableEq, Repr

/-- The read-modify-write core of `deduct_credits_atomic`
(`user_service.py:93-101`): fail if `credits_remaining < credits`, else
increment `credits_used` and decrement `credits_remaining`. -/
def deduct_sub (sub : Subscription) (credits : Int) :
    Except DeductError Subscription :=
  if sub.credits_remaining < credits then
    .error .insufficientCredits
  else
    .ok { sub with
          credits_used := sub.credits_used + credits,
          credits_remaining := sub.credits_remaining - credits }

/-- The subscriptions table, keyed by `user_id`. -/
def LedgerStore := Str → Option Subscription

/-- `deduct_credits_atomic(db, user_id, credits)` (`user_service.py:76-106`):
under a `SELECT ... FOR UPDATE` row lock, load the tenant's row, raise
`ValueError` when `credits_remaining < credits` (leaving the row as it
was), otherwise apply the deduction and commit it.  The row lock
serializes the read-modify-write; here that whole critical section is one
function from store to store. -/
def deduct_credits_atomic (db : LedgerStore) (user_id : Str) (credits : Int) :
    Except DeductError Subscription × LedgerStore :=
  match db user_id with
  | none => (.error .noSubscriptionRow, db)
  | some sub =>
      match deduct_sub sub credits with
      | .error e => (.error e, db)
      | .ok sub' => (.ok sub', fun u => if u = user_id then some sub' else db u)

/-!
## Credit multiplier table — `backend/app/models.py`
-/

/-- `calculate_normalized_credit_multiplier` (`models.py:16-46`): weighted
average cost per 1k tokens at a 1:3 input:output ratio, normalized by
`CREDIT_BASE_VALUE = 0.001`.  The source's final `round(multiplier, 6)` is
the identity on every value this table produces (each has at most five
fractional decimal digits), so it is omitted here. -/
def calculate_normalized_credit_multiplier (input_cost_1k output_cost_1k : ℚ) : ℚ :=
  ((input_cost_1k * 1 + output_cost_1k * 3) / 4) / (1/1000)

/-- `MODEL_CREDIT_COSTS` (`models.py:230-237`): model id → credit
multiplier, one entry per `MODEL_META` key plus the `"default"` entry. -/
def MODEL_CREDIT_COSTS : List (Str × ℚ) :=
  [ ("gemini-2.5-flash".toList, calculate_normalized_credit_multiplier 0.0001 0.0004),
    ("gemini-2.5-pro".toList, calculate_normalized_credit_multiplier 0.00125 0.00375),
    ("gpt-3.5-turbo".toList, calculate_normalized_credit_multiplier 0.0005 0.0015),
    ("gpt-4o".toList, calculate_normalized_credit_multiplier 0.005 0.015),
    ("claude-3-haiku-20240307".toList, calculate_normalized_credit_multiplier 0.00025 0.00125),
    ("claude-3-5-sonnet-20240620".toList, calculate_normalized_credit_multiplier 0.003 0.015),
    ("grok-beta".toList, calculate_normalized_credit_multiplier 0.001 0.003),
    ("grok-2".toList, calculate_normalized_credit_multiplier 0.002 0.006),
    ("perplexity-sonar".toList, calculate_normalized_credit_multiplier 0.0005 0.002),
    ("perplexity-sonar-pro".toList, calculate_normalized_credit_multiplier 0.001 0.004),
    ("gpt-4o-mini".toList, calculate_normalized_credit_multiplier 0.00015 0.0006),
    ("gpt-4-turbo".toList, calculate_normalized_credit_multiplier 0.01 0.03),
    ("o1-mini".toList, calculate_normalized_credit_multiplier 0.003 0.012),
    ("o1-preview".toList, calculate_normalized_credit_multiplier 0.015 0.06),
    ("claude-3-opus-20240229".toList, calculate_normalized_credit_multiplier 0.015 0.075),
    ("claude-3-5-haiku-20241022".toList, calculate_normalized_credit_multiplier 0.00025 0.00125),
    ("claude-3-sonnet-20240229".toList, calculate_normalized_credit_multiplier 0.003 0.015),
    ("gemini-2.0-flash".toList, calculate_normalized_credit_multiplier 0.0001 0.0004),
    ("gemini-pro-latest".toList, calculate_normalized_credit_multiplier 0.00125 0.00375),
    ("gemini-flash-latest".toList, calculate_normalized_credit_multiplier 0.0001 0.0004),
    ("gemini-1.5-pro".toList, calculate_normalized_credit_multiplier 0.00125 0.005),
    ("gemini-1.5-flash".toList, calculate_normalized_credit_multiplier 0.000075 0.0003),
    ("default".toList, calculate_normalized_credit_multiplier 0.001 0.003) ]

/-- `models.MODEL_CREDIT_COSTS.get(model, 0.01)` as used by
`routers/chat.py` at lines 141, 172, 256 and 314. -/
def credit_multiplier_of (model : Str) : ℚ :=
  (MODEL_CREDIT_COSTS.lookup model).getD (1/100)

/-!
## Stream emulation — `app/utils/stream_emulation.py`
-/

/-- `emulate_stream_text(text, chunk_size)` (`stream_emulation.py:4-24`):
the sequence of chunks `text[pos : min(pos+chunk_size, len(text))]`
yielded by the loop, as a list.  The inter-chunk `asyncio.sleep(delay)`
carries no data and is dropped.  The `chunk_size = 0` branch is
unreachable in the source (the only call site uses the default `120`; the
Python loop would not terminate there), so it returns `[]`. -/
def emulate_stream_text (chunk_size : Nat) (text : Str) : List Str :=
  match chunk_size, text with
  | _, [] => []
  | 0, _ :: _ => []
  | Nat.succ m, c :: cs =>
      ((c :: cs).take (m+1)) :: emulate_stream_text (m+1) ((c :: cs).drop (m+1))
termination_by text.length
decreasing_by simp; omega

/-!
## Streaming orchestrator — `backend/app/routers/chat.py`
-/

/-- One server-sent event of the `/stream/chat` response
(`data: {json}` lines).  `done` keeps the numeric fields the claims talk
about. -/
inductive Event
  /-- `{"type": "chunk", "content": ...}` -/
  | chunk (content : Str)
  /-- `{"type": "done", ...}` (`chat.py:359-367`) -/
  | done (tokens_used : Nat) (credits_used credits_remaining : Int)
  /-- `{"type": "error", "error": code, "message": ...}` -/
  | error (code : Str) (message : Str)
deriving DecidableEq, Repr

/-- A `done` or `error` event. -/
def Event.isTerminal : Event → Bool
  | .chunk _ => false
  | .done .. => true
  | .error .. => true

/-- Number of terminal (`done`/`error`) events in a stream. -/
def terminalCount (evs : List Event) : Nat :=
  (evs.filter Event.isTerminal).length

/-- Concatenation of the contents of all `chunk` events, in order. -/
def chunkConcat (evs : List Event) : Str :=
  (evs.filterMap fun e => match e with
    | .chunk c => some c
    | _ => none).flatten

/-- `"quota" in msg or "limit" in msg` over `msg = str(e).lower()`
(`chat.py:281-282`). -/
def isQuotaOrLimit (msg : Str) : Bool :=
  strContains (lowerStr msg) "quota".toList || strContains (lowerStr msg) "limit".toList

/-- One request's provider/storage behaviour, the oracle the generator
runs against: what `stream_generate` yields and whether it raises, what
`generate` returns if invoked, and whether the conversation/message/usage
writes of the finalization block succeed. -/
structure ProviderBehavior where
  /-- The deltas `stream_generate` yields, in order, before it finishes. -/
  streamChunks : List Str
  /-- `some msg`: after those deltas the stream raises with `str(e) = msg`;
  `none`: the stream completes normally. -/
  streamExc : Option Str
  /-- Outcome of `provider.generate` if the fallback invokes it:
  `.ok content` (with `content = result.get('content', '')`) or
  `.error msg` for an exception with `str(e2) = msg`. -/
  generateResult : Except Str Str
  /-- Whether the DB writes after the deduction in the finalization block
  (`ensure_conversation` / `save_message` / `track_usage`) succeed. -/
  saveOk : Bool

/-- Result of running `event_stream`: the events yielded to the caller,
the subscription row after the generator finished (`none` when no
deduction was committed), and how many times `provider.generate` ran. -/
structure StreamRun where
  events : List Event
  finalSub : Option Subscription
  generateCalls : Nat
deriving Repr

/-- Credits deducted at finalization (`chat.py:314-315`):
`int(total_tokens * multiplier)`. -/
def credits_of_tokens (total_tokens : Nat) (mult : ℚ) : Int :=
  pyInt ((total_tokens : ℚ) * mult)

/-- The `# FINALIZE` block (`chat.py:304-371`): compute token totals,
deduct `int(total_tokens * multiplier)` through `deduct_credits_atomic`,
persist messages/usage, and yield the single `done` event.  Any exception
in the block — including the ledger's `ValueError` and storage failures —
is caught by `except ... print` (`chat.py:369-371`), so the generator
ends with no further event; a deduction already committed stays
committed. -/
def finalizeBlock (sub : Subscription) (estimated : Nat)
    (count_tokens : Str → Nat) (mult : ℚ) (saveOk : Bool)
    (full_response : Str) : List Event × Option Subscription :=
  let completion_tokens := count_tokens full_response
  let total_tokens := estimated + completion_tokens
  let credits_to_deduct := credits_of_tokens total_tokens mult
  match deduct_sub sub credits_to_deduct with
  | .error _ => ([], none)
  | .ok sub' =>
      if saveOk then
        ([Event.done total_tokens sub'.credits_used sub'.credits_remaining], some sub')
      else
        ([], some sub')

/-- The `event_stream` generator of `/stream/chat` (`chat.py:264-371`).

Relay loop: each yielded delta that is non-empty after `strip()` is
forwarded as a `chunk` event and appended to `full_response`; blank
deltas are suppressed.  If the stream raises: a message containing
`"quota"` or `"limit"` (lowercased) yields one `provider_error` event and
returns; otherwise, only when no chunk was sent yet, `generate` is
invoked once — its non-empty content is re-emitted through
`emulate_stream_text` (and `full_response` is set to the content), an
empty content falls through, and a second exception yields one
`llm_error` event and returns.  Control then reaches the finalization
block. -/
def event_stream (b : ProviderBehavior) (sub : Subscription) (estimated : Nat)
    (count_tokens : Str → Nat) (mult : ℚ) : StreamRun :=
  let emitted := b.streamChunks.filter (fun c => !isBlank c)
  let chunkEvents := emitted.map Event.chunk
  let any_chunk_sent := !emitted.isEmpty
  let full_response := emitted.flatten
  match b.streamExc with
  | none =>
      let (evs, fs) := finalizeBlock sub estimated count_tokens mult b.saveOk full_response
      ⟨chunkEvents ++ evs, fs, 0⟩
  | some msg =>
      if isQuotaOrLimit msg then
        ⟨chunkEvents ++ [Event.error "provider_error".toList msg], none, 0⟩
      else if any_chunk_sent then
        -- `if not any_chunk_sent` guards the fallback body; nothing runs
        -- and control falls through to finalization.
        let (evs, fs) := finalizeBlock sub estimated count_tokens mult b.saveOk full_response
        ⟨chunkEvents ++ evs, fs, 0⟩
      else
        match b.generateResult with
        | .error e2 =>
            ⟨chunkEvents ++ [Event.error "llm_error".toList e2], none, 1⟩
        | .ok content =>
            if content.isEmpty then
              let (evs, fs) := finalizeBlock sub estimated count_tokens mult b.saveOk full_response
              ⟨chunkEvents ++ evs, fs, 1⟩
            else
              let parts := emulate_stream_text 120 content
              -- after the emission loop, `full_response = content` (chat.py:298)
              let (evs, fs) := finalizeBlock sub estimated count_tokens mult b.saveOk content
              ⟨chunkEvents ++ parts.map Event.chunk ++ evs, fs, 1⟩

/-!
## Entitlement checks and throttle of `/stream/chat` — `chat.py:230-259`
-/

/-- Outcome of the pre-dispatch checks of `stream_chat`. -/
inductive AdmitResult
  /-- `stream_error("invalid_subscription", ...)` -/
  | invalid_subscription
  /-- `stream_error("model_not_allowed", ...)` -/
  | model_not_allowed
  /-- `stream_error("insufficient_credits", ...)` -/
  | insufficient_credits
  /-- all checks passed; the request is dispatched -/
  | admitted
deriving DecidableEq, Repr

/-- The sequential checks of `stream_chat` before dispatch
(`chat.py:230-259`): subscription exists and is active, model in the
allow-list, then the conservative credit check
`needed = int((estimated + max_tokens) * multiplier)` against
`credits_remaining`.  The throttle between them admits unconditionally
(see `throttle_gate`). -/
def stream_chat_admission (sub : Option Subscription) (model : Str)
    (estimated : Nat) (max_tokens : Nat) : AdmitResult :=
  match sub with
  | none => .invalid_subscription
  | some s =>
      if s.status ≠ "active".toList then .invalid_subscription
      else if ¬ (model ∈ s.allowed_models) then .model_not_allowed
      else
        let needed := pyInt (((estimated + max_tokens : Nat) : ℚ) * credit_multiplier_of model)
        if s.credits_remaining < needed then .insufficient_credits
        else .admitted

/-- The in-memory `user_last_request` map (`chat.py:26`,
`defaultdict(float)`), tenant id → timestamp of the last request. -/
def LastRequestMap := Str → ℚ

/-- The throttle block of `stream_chat` (`chat.py:240-244`): read
`user_last_request.get(user_id, 0.0)`, compare `now - last < 0.5` — whose
sole consequence is `pass` — and store `now`.  Every request is admitted;
the map keeps only the most recent timestamp per tenant. -/
def throttle_gate (user_last : LastRequestMap) (user_id : Str) (now : ℚ) :
    Bool × LastRequestMap :=
  (true, fun u => if u = user_id then now else user_last u)

/-!
## Provider factory — `backend/app/llm/factory.py`
-/

/-- The adapter classes the factory can instantiate. -/
inductive Provider
  | openai
  | anthropic
  | gemini
  | grok
  | perplexity
  | mock
deriving DecidableEq, Repr

/-- The deployment configuration the adapter constructors read at
instantiation time: which SDK imports succeeded (the `try: import ...`
guards at the top of each provider module) and which API keys are
configured (settings or environment). -/
structure ProviderEnv where
  /-- `from openai import AsyncOpenAI` succeeded (read by both the
  OpenAI and the Grok adapter). -/
  openai_sdk : Bool
  /-- `from anthropic import AsyncAnthropic` succeeded. -/
  anthropic_sdk : Bool
  /-- `import google.generativeai` succeeded. -/
  genai_sdk : Bool
  /-- `import httpx` succeeded. -/
  httpx_sdk : Bool
  /-- `OPENAI_API_KEY` present. -/
  openai_api_key : Bool
  /-- `ANTHROPIC_API_KEY` present. -/
  anthropic_api_key : Bool
  /-- `GEMINI_API_KEY` present (settings or environment). -/
  gemini_api_key : Bool
  /-- `GROK_API_KEY` present (settings or environment). -/
  grok_api_key : Bool
  /-- `PERPLEXITY_API_KEY` present (settings or environment). -/
  perplexity_api_key : Bool
deriving DecidableEq, Repr

/-- `OpenAIProvider.__init__` (`openai_provider.py:18-21`): the client is
`AsyncOpenAI(api_key=...) if AsyncOpenAI is not None else None`, so the
constructor raises only when the SDK is importable and no key is
configured — the `openai` SDK client raises at construction when its
`api_key` option resolves to nothing.  With the SDK absent the
constructor succeeds with a `None` client. -/
def OpenAIProvider_init (env : ProviderEnv) : Except Str Provider :=
  if env.openai_sdk && !env.openai_api_key then
    .error "The api_key client option must be set".toList
  else .ok .openai

/-- `AnthropicProvider.__init__` (`anthropic_provider.py:16-19`): same
pattern as the OpenAI adapter, over `AsyncAnthropic` and
`ANTHROPIC_API_KEY`. -/
def AnthropicProvider_init (env : ProviderEnv) : Except Str Provider :=
  if env.anthropic_sdk && !env.anthropic_api_key then
    .error "Could not resolve authentication method".toList
  else .ok .anthropic

/-- `GeminiProvider.__init__` (`gemini_provider.py:31-37`): raises
`RuntimeError` when the `google-generativeai` package is not installed,
then when no `GEMINI_API_KEY` is configured. -/
def GeminiProvider_init (env : ProviderEnv) : Except Str Provider :=
  if !env.genai_sdk then
    .error "google-generativeai package not installed. Run: pip install google-generativeai".toList
  else if !env.gemini_api_key then
    .error "GEMINI_API_KEY not configured in environment or settings".toList
  else .ok .gemini

/-- `GrokProvider.__init__` (`grok_provider.py:29-39`): raises
`RuntimeError("GROK_API_KEY not configured.")` when no key is
configured, then `RuntimeError("openai SDK not installed. ...")` when the
OpenAI-compatible SDK is absent. -/
def GrokProvider_init (env : ProviderEnv) : Except Str Provider :=
  if !env.grok_api_key then
    .error "GROK_API_KEY not configured.".toList
  else if !env.openai_sdk then
    .error "openai SDK not installed. Install with: pip install openai".toList
  else .ok .grok

/-- `PerplexityProvider.__init__` (`perplexity_provider.py:31-40`):
raises `RuntimeError("PERPLEXITY_API_KEY not configured.")` when no key
is configured, then `RuntimeError("httpx not installed. ...")` when
`httpx` is absent. -/
def PerplexityProvider_init (env : ProviderEnv) : Except Str Provider :=
  if !env.perplexity_api_key then
    .error "PERPLEXITY_API_KEY not configured.".toList
  else if !env.httpx_sdk then
    .error "httpx not installed. Install with: pip install httpx".toList
  else .ok .perplexity

/-- `MockLLMProvider()` (`mock.py`): no constructor, never raises. -/
def MockLLMProvider_init : Except Str Provider := .ok .mock

/-- `LLMProviderFactory.create_provider(model)` (`factory.py:23-49`):
lowercase the model id (`(model or "").lower()`), test the keyword rules
in order — `gpt`/`o1`/`openai`, `claude`, `gemini`, `grok`,
`perplexity`/`sonar` — and instantiate the matching adapter class,
falling back to the mock provider when none matches.  The factory has no
exception handling, so an exception raised by the selected adapter's
constructor propagates to the caller. -/
def create_provider (env : ProviderEnv) (model : Str) : Except Str Provider :=
  let model_lower := lowerStr model
  if strContains model_lower "gpt".toList || strContains model_lower "o1".toList
      || strContains model_lower "openai".toList then OpenAIProvider_init env
  else if strContains model_lower "claude".toList then AnthropicProvider_init env
  else if strContains model_lower "gemini".toList then GeminiProvider_init env
  else if strContains model_lower "grok".toList then GrokProvider_init env
  else if strContains model_lower "perplexity".toList
      || strContains model_lower "sonar".toList then PerplexityProvider_init env
  else MockLLMProvider_init

/-!
## Theorems
-/

/-- C1: for every tenant and requested amount, `deduct_credits_atomic`
on a present subscription row fails with the insufficient-credits error
exactly when `credits_remaining < credits`, leaving the stored balance
unchanged; otherwise it increments `credits_used` and decrements
`credits_remaining` by the amount, stores the result, and returns the
post-deduction balance. -/
theorem deduct_credits_atomic_spec (db : LedgerStore) (user_id : Str)
    (credits : Int) (sub : Subscription) (h : db user_id = some sub) :
    (sub.credits_remaining < credits →
      (deduct_credits_atomic db user_id credits).1 = .error .insufficientCredits ∧
      (deduct_credits_atomic db user_id credits).2 = db) ∧
    (credits ≤ sub.credits_remaining →
      ∃ sub', (deduct_credits_atomic db user_id credits).1 = .ok sub' ∧
        sub'.credits_used = sub.credits_used + credits ∧
        sub'.credits_remaining = sub.credits_remaining - credits ∧
        sub'.credits_limit = sub.credits_limit ∧
        (deduct_credits_atomic db user_id credits).2 user_id = some sub' ∧
        ∀ u, u ≠ user_id → (deduct_credits_atomic db user_id credits).2 u = db u) := by
  constructor
  · intro hc
    simp [deduct_credits_atomic, deduct_sub, h, hc]
  · intro hc
    refine ⟨{ sub with credits_used := sub.credits_used + credits,
                       credits_remaining := sub.credits_remaining - credits },
            ?_, rfl, rfl, rfl, ?_, ?_⟩
    · simp [deduct_credits_atomic, deduct_sub, h, not_lt.mpr hc]
    · simp [deduct_credits_atomic, deduct_sub, h, not_lt.mpr hc]
    · intro u hu
      simp [deduct_credits_atomic, deduct_sub, h, not_lt.mpr hc, hu]

/-- A concrete subscription row used by witnesses: active, 10 credits
remaining out of a limit of 10. -/
def subTen : Subscription :=
  { status := "active".toList
    allowed_models := ["gemini-2.5-flash".toList]
    credits_limit := 10
    credits_used := 0
    credits_remaining := 10 }

/-- A one-row ledger holding `subTen` for tenant `"t"`. -/
def dbTen : LedgerStore := fun u => if u = "t".toList then some subTen else none

/-- Witness for C1 at tenant `"t"`, amount 4. -/
theorem deduct_credits_atomic_spec_witness :
    ∃ sub', (deduct_credits_atomic dbTen "t".toList 4).1 = .ok sub' ∧
      sub'.credits_used = subTen.credits_used + 4 ∧
      sub'.credits_remaining = subTen.credits_remaining - 4 ∧
      sub'.credits_limit = subTen.credits_limit ∧
      (deduct_credits_atomic dbTen "t".toList 4).2 "t".toList = some sub' ∧
      ∀ u, u ≠ "t".toList → (deduct_credits_atomic dbTen "t".toList 4).2 u = dbTen u :=
  (deduct_credits_atomic_spec dbTen "t".toList 4 subTen (by rfl)).2 (by decide)

/-- C2: the balance invariant `credits_used + credits_remaining =
credits_limit` is preserved by every successful `deduct_credits_atomic`,
for every deduction amount. -/
theorem deduct_credits_atomic_preserves_invariant (db : LedgerStore)
    (user_id : Str) (credits : Int) (sub sub' : Subscription)
    (h : db user_id = some sub)
    (hinv : sub.credits_used + sub.credits_remaining = sub.credits_limit)
    (hok : (deduct_credits_atomic db user_id credits).1 = .ok sub') :
    sub'.credits_used + sub'.credits_remaining = sub'.credits_limit := by
  simp only [deduct_credits_atomic, h] at hok
  unfold deduct_sub at hok
  by_cases hc : sub.credits_remaining < credits
  · simp [hc] at hok
  · simp [hc] at hok
    rw [← hok]
    simp
    omega

/-- The row `subTen` after deducting 4 credits. -/
def subTenAfterFour : Subscription :=
  { subTen with credits_used := 4, credits_remaining := 6 }

/-- Witness for C2 at tenant `"t"`, amount 4. -/
theorem deduct_credits_atomic_preserves_invariant_witness :
    subTenAfterFour.credits_used + subTenAfterFour.credits_remaining =
      subTenAfterFour.credits_limit :=
  deduct_credits_atomic_preserves_invariant dbTen "t".toList 4 subTen
    subTenAfterFour (by rfl) (by decide) (by rfl)

/-- The ordered keyword list `create_provider` tests. -/
def routerKeywords : List Str :=
  ["gpt".toList, "o1".toList, "openai".toList, "claude".toList,
   "gemini".toList, "grok".toList, "perplexity".toList, "sonar".toList]

/-- A deployment with every SDK installed and every API key configured. -/
def envFull : ProviderEnv :=
  { openai_sdk := true, anthropic_sdk := true, genai_sdk := true,
    httpx_sdk := true, openai_api_key := true, anthropic_api_key := true,
    gemini_api_key := true, grok_api_key := true, perplexity_api_key := true }

/-- `envFull` with `GROK_API_KEY` unset. -/
def envNoGrokKey : ProviderEnv :=
  { envFull with grok_api_key := false }

/-- C9 counterexample: `create_provider` is not raise-free — in a
deployment without `GROK_API_KEY`, `create_provider("grok-2")` raises
`RuntimeError("GROK_API_KEY not configured.")` instead of returning an
adapter (`grok-2` is in the pro-tier allow-list, so the call is reachable
from `/stream/chat`). -/
theorem create_provider_raises_counterexample :
    create_provider envNoGrokKey "grok-2".toList =
      .error "GROK_API_KEY not configured.".toList := by
  rfl

/-- C9 amended: the keyword *selection* is total and case-insensitive —
the outcome depends only on the lowercased identifier, and every
identifier matching no keyword (the empty string in particular) resolves
to the mock adapter without any possibility of raising; with every SDK
and API key configured, `create_provider` returns an adapter for every
identifier.  But `create_provider` is not raise-free in general: the
selected adapter's constructor raises when its API key or SDK is
missing, and the factory does not catch it. -/
theorem create_provider_selection_total :
    (∀ (env : ProviderEnv) (m₁ m₂ : Str), lowerStr m₁ = lowerStr m₂ →
        create_provider env m₁ = create_provider env m₂) ∧
    (∀ (env : ProviderEnv) (m : Str),
        (∀ k ∈ routerKeywords, strContains (lowerStr m) k = false) →
        create_provider env m = .ok .mock) ∧
    (∀ env : ProviderEnv, create_provider env "".toList = .ok .mock) ∧
    (∀ m : Str, ∃ p, create_provider envFull m = .ok p) := by
  refine ⟨?_, ?_, by intro env; rfl, ?_⟩
  · intro env m₁ m₂ hlow
    unfold create_provider
    rw [hlow]
  · intro env m h
    have hgpt := h "gpt".toList (by simp [routerKeywords])
    have ho1 := h "o1".toList (by simp [routerKeywords])
    have hopenai := h "openai".toList (by simp [routerKeywords])
    have hclaude := h "claude".toList (by simp [routerKeywords])
    have hgemini := h "gemini".toList (by simp [routerKeywords])
    have hgrok := h "grok".toList (by simp [routerKeywords])
    have hperp := h "perplexity".toList (by simp [routerKeywords])
    have hsonar := h "sonar".toList (by simp [routerKeywords])
    unfold create_provider
    simp only [hgpt, ho1, hopenai, hclaude, hgemini, hgrok, hperp, hsonar]
    simp [MockLLMProvider_init]
  · intro m
    unfold create_provider
    dsimp only
    split_ifs
    · exact ⟨.openai, rfl⟩
    · exact ⟨.anthropic, rfl⟩
    · exact ⟨.gemini, rfl⟩
    · exact ⟨.grok, rfl⟩
    · exact ⟨.perplexity, rfl⟩
    · exact ⟨.mock, rfl⟩

/-- Witness for the amended C9: `"GROK-2"` and `"grok-2"` resolve
identically, an unrecognized name resolves to the mock adapter, and in a
fully configured deployment `"grok-2"` yields an adapter. -/
theorem create_provider_selection_total_witness :
    create_provider envFull "GROK-2".toList =
      create_provider envFull "grok-2".toList ∧
    create_provider envFull "llama-3-70b".toList = .ok .mock ∧
    ∃ p, create_provider envFull "grok-2".toList = .ok p :=
  ⟨create_provider_selection_total.1 envFull "GROK-2".toList "grok-2".toList
      (by decide),
   create_provider_selection_total.2.1 envFull "llama-3-70b".toList (by decide),
   create_provider_selection_total.2.2.2 "grok-2".toList⟩

/-- C5 counterexample: two requests from tenant `"u"` one second apart are
both admitted by the throttle, although the claimed sliding-window rule
with a per-minute ceiling of 1 would reject the second (its window
already holds one timestamp newer than now − 60s). -/
theorem throttle_gate_counterexample :
    (throttle_gate (fun _ => 0) "u".toList 0).1 = true ∧
    (throttle_gate (throttle_gate (fun _ => 0) "u".toList 0).2
        "u".toList 1).1 = true ∧
    (1 : ℚ) - 0 < 60 ∧ ¬ (2 ≤ (1 : Nat)) := by
  refine ⟨rfl, rfl, by norm_num, by decide⟩

/-- C5 amended: the `/stream/chat` throttle keeps only, per tenant, the
timestamp of the most recent request; its `now - last < 0.5` comparison
has no effect, every request is admitted regardless of any ceiling, and
admission overwrites the tenant's stored timestamp, leaving other
tenants' entries untouched. -/
theorem throttle_gate_always_admits (user_last : LastRequestMap)
    (user_id : Str) (now : ℚ) :
    (throttle_gate user_last user_id now).1 = true ∧
    (throttle_gate user_last user_id now).2 user_id = now ∧
    ∀ u, u ≠ user_id → (throttle_gate user_last user_id now).2 u = user_last u := by
  refine ⟨rfl, by simp [throttle_gate], ?_⟩
  intro u hu
  simp [throttle_gate, hu]

/-- Witness for the amended C5 at tenant `"u"`, time 7. -/
theorem throttle_gate_always_admits_witness :
    (throttle_gate (fun _ => 0) "u".toList 7).1 = true ∧
    (throttle_gate (fun _ => 0) "u".toList 7).2 "u".toList = 7 ∧
    (throttle_gate (fun _ => 0) "u".toList 7).2 "v".toList = 0 :=
  ⟨(throttle_gate_always_admits (fun _ => 0) "u".toList 7).1,
   (throttle_gate_always_admits (fun _ => 0) "u".toList 7).2.1,
   (throttle_gate_always_admits (fun _ => 0) "u".toList 7).2.2 "v".toList
      (by decide)⟩

/-- The table multiplier of `gemini-2.5-flash` is exactly `0.325`. -/
theorem credit_multiplier_gemini_flash :
    credit_multiplier_of "gemini-2.5-flash".toList = 13 / 40 := by
  show calculate_normalized_credit_multiplier 0.0001 0.0004 = 13 / 40
  norm_num [calculate_normalized_credit_multiplier]

/-- The table multiplier of `claude-3-haiku-20240307` is exactly `1.0`. -/
theorem credit_multiplier_claude_haiku :
    credit_multiplier_of "claude-3-haiku-20240307".toList = 1 := by
  show calculate_normalized_credit_multiplier 0.00025 0.00125 = 1
  norm_num [calculate_normalized_credit_multiplier]

/-- C10: the credits deducted at finalization are
`int(total_tokens * multiplier)`; whenever
`total_tokens × multiplier < 1`, the deduction is zero and the
finalization leaves `credits_used` and `credits_remaining` unchanged,
even though content was delivered (the `done` event is still emitted when
the storage writes succeed). -/
theorem finalize_zero_credit_truncation
    (sub : Subscription) (estimated : Nat) (count_tokens : Str → Nat)
    (mult : ℚ) (saveOk : Bool) (full : Str)
    (hm : 0 ≤ mult) (hr : 0 ≤ sub.credits_remaining)
    (hlt : ((estimated + count_tokens full : Nat) : ℚ) * mult < 1) :
    credits_of_tokens (estimated + count_tokens full) mult = 0 ∧
    ∃ sub', (finalizeBlock sub estimated count_tokens mult saveOk full).2 = some sub' ∧
      sub'.credits_used = sub.credits_used ∧
      sub'.credits_remaining = sub.credits_remaining ∧
      (saveOk = true →
        (finalizeBlock sub estimated count_tokens mult saveOk full).1 =
          [Event.done (estimated + count_tokens full)
            sub.credits_used sub.credits_remaining]) := by
  have hzero : credits_of_tokens (estimated + count_tokens full) mult = 0 := by
    unfold credits_of_tokens pyInt
    rw [Int.floor_eq_zero_iff]
    exact ⟨mul_nonneg (Nat.cast_nonneg _) hm, hlt⟩
  refine ⟨hzero, ?_⟩
  simp only [finalizeBlock, deduct_sub, hzero]
  rw [if_neg (not_lt.mpr hr)]
  cases saveOk <;> simp

/-- Witness for C10 at the real `gemini-2.5-flash` multiplier `0.325`
and 3 total tokens: `3 × 0.325 = 0.975 < 1`, so zero credits are
deducted from `subTen`. -/
theorem finalize_zero_credit_truncation_witness :
    credits_of_tokens 3 (credit_multiplier_of "gemini-2.5-flash".toList) = 0 ∧
    ∃ sub', (finalizeBlock subTen 1 (fun _ => 2)
        (credit_multiplier_of "gemini-2.5-flash".toList) true "abc".toList).2 = some sub' ∧
      sub'.credits_used = subTen.credits_used ∧
      sub'.credits_remaining = subTen.credits_remaining ∧
      (true = true →
        (finalizeBlock subTen 1 (fun _ => 2)
            (credit_multiplier_of "gemini-2.5-flash".toList) true "abc".toList).1 =
          [Event.done 3 subTen.credits_used subTen.credits_remaining]) :=
  finalize_zero_credit_truncation subTen 1 (fun _ => 2)
    (credit_multiplier_of "gemini-2.5-flash".toList) true "abc".toList
    (by rw [credit_multiplier_gemini_flash]; norm_num)
    (by decide)
    (by rw [credit_multiplier_gemini_flash]; norm_num)

/-- An active subscription with a single remaining credit, allowed to use
`gemini-2.5-flash`. -/
def subOne : Subscription :=
  { status := "active".toList
    allowed_models := ["gemini-2.5-flash".toList]
    credits_limit := 1
    credits_used := 0
    credits_remaining := 1 }

/-- C4 counterexample: with the real `gemini-2.5-flash` multiplier
`0.325`, a prompt estimated at 2 tokens and `max_tokens = 2`, a tenant
with one remaining credit is admitted (`int(4 × 0.325) = 1 ≤ 1`) although
`credits_remaining = 1 < 0.325 × (2 + 2) = 1.3`: the claimed real-valued
inequality did not hold at admission time. -/
theorem stream_chat_admission_counterexample :
    stream_chat_admission (some subOne) "gemini-2.5-flash".toList 2 2 =
      .admitted ∧
    ¬ ((subOne.credits_remaining : ℚ) ≥
        credit_multiplier_of "gemini-2.5-flash".toList * ((2 : ℚ) + 2)) := by
  constructor
  · have h4 : pyInt (((2 + 2 : Nat) : ℚ) *
        credit_multiplier_of "gemini-2.5-flash".toList) = 1 := by
      rw [credit_multiplier_gemini_flash]
      unfold pyInt
      norm_num [Int.floor_eq_iff]
    unfold stream_chat_admission
    rw [h4]
    simp [subOne]
  · rw [credit_multiplier_gemini_flash]
    simp only [subOne]
    norm_num

/-- An active subscription with 100 remaining credits, allowed to use
`claude-3-haiku-20240307` (multiplier `1.0`). -/
def subHundred : Subscription :=
  { status := "active".toList
    allowed_models := ["claude-3-haiku-20240307".toList]
    credits_limit := 100
    credits_used := 0
    credits_remaining := 100 }

/-- C4 amended: if the `/stream/chat` entitlement check admits a request
with `max_tokens = M`, then `credits_remaining ≥
int(multiplier × (estimated + M))` held — equivalently
`credits_remaining > multiplier × (estimated + M) − 1`, the claimed bound
weakened by at most one credit by the `int(...)` truncation.  The
claimed scenario does hold: 100 remaining credits, multiplier `1.0`,
`max_tokens = 50`, prompt estimated at 60 tokens is rejected with the
insufficient-credits error before dispatch. -/
theorem stream_chat_admission_conservatism
    (sub : Subscription) (model : Str) (estimated max_tokens : Nat)
    (h : stream_chat_admission (some sub) model estimated max_tokens = .admitted) :
    ((sub.credits_remaining : ℚ) >
        credit_multiplier_of model * ((estimated : ℚ) + max_tokens) - 1 ∧
      sub.credits_remaining ≥
        pyInt (((estimated + max_tokens : Nat) : ℚ) * credit_multiplier_of model)) ∧
    stream_chat_admission (some subHundred) "claude-3-haiku-20240307".toList
        60 50 = .insufficient_credits := by
  constructor
  · simp only [stream_chat_admission] at h
    split_ifs at h with h1 h2 h3
    have hge : pyInt (((estimated + max_tokens : Nat) : ℚ) *
        credit_multiplier_of model) ≤ sub.credits_remaining := not_lt.mp h3
    refine ⟨?_, hge⟩
    have h2q : ((pyInt (((estimated + max_tokens : Nat) : ℚ) *
        credit_multiplier_of model) : Int) : ℚ) ≤ (sub.credits_remaining : ℚ) := by
      exact_mod_cast hge
    have h3q : ((estimated + max_tokens : Nat) : ℚ) *
        credit_multiplier_of model - 1 <
        ((pyInt (((estimated + max_tokens : Nat) : ℚ) *
          credit_multiplier_of model) : Int) : ℚ) := by
      unfold pyInt
      exact Int.sub_one_lt_floor _
    calc credit_multiplier_of model * ((estimated : ℚ) + max_tokens) - 1
        = ((estimated + max_tokens : Nat) : ℚ) *
            credit_multiplier_of model - 1 := by push_cast; ring
      _ < _ := h3q
      _ ≤ (sub.credits_remaining : ℚ) := h2q
  · have h110 : pyInt (((60 + 50 : Nat) : ℚ) *
        credit_multiplier_of "claude-3-haiku-20240307".toList) = 110 := by
      rw [credit_multiplier_claude_haiku]
      unfold pyInt
      norm_num
    unfold stream_chat_admission
    rw [h110]
    simp [subHundred]

/-- Witness for the amended C4: `subTen` requesting `gemini-2.5-flash`
with 1 estimated token and `max_tokens = 1` is admitted
(`int(2 × 0.325) = 0 ≤ 10`), and the truncated bound holds. -/
theorem stream_chat_admission_conservatism_witness :
    ((subTen.credits_remaining : ℚ) >
        credit_multiplier_of "gemini-2.5-flash".toList * ((1 : ℚ) + 1) - 1 ∧
      subTen.credits_remaining ≥
        pyInt (((1 + 1 : Nat) : ℚ) *
          credit_multiplier_of "gemini-2.5-flash".toList)) ∧
    stream_chat_admission (some subHundred) "claude-3-haiku-20240307".toList
        60 50 = .insufficient_credits :=
  stream_chat_admission_conservatism subTen "gemini-2.5-flash".toList 1 1
    (by
      have h0 : pyInt (((1 + 1 : Nat) : ℚ) *
          credit_multiplier_of "gemini-2.5-flash".toList) = 0 := by
        rw [credit_multiplier_gemini_flash]
        unfold pyInt
        rw [Int.floor_eq_zero_iff]
        constructor <;> norm_num
      unfold stream_chat_admission
      rw [h0]
      simp [subTen])

/-- The emulated chunks of a text concatenate back to the text: the
fixed-size slicing loses and duplicates nothing (for any positive chunk
size, in particular the source's 120). -/
theorem emulate_stream_text_flatten (m : Nat) :
    ∀ (n : Nat) (s : Str), s.length ≤ n →
      (emulate_stream_text (m + 1) s).flatten = s := by
  intro n
  induction n with
  | zero =>
      intro s h
      have : s = [] := List.eq_nil_of_length_eq_zero (Nat.le_zero.mp h)
      subst this
      simp [emulate_stream_text]
  | succ n ih =>
      intro s h
      match s with
      | [] => simp [emulate_stream_text]
      | c :: cs =>
          rw [emulate_stream_text]
          rw [List.flatten_cons]
          rw [ih ((c :: cs).drop (m + 1)) (by simp at h ⊢; omega)]
          exact List.take_append_drop _ _

/-- `chunkConcat` distributes over append. -/
theorem chunkConcat_append (a b : List Event) :
    chunkConcat (a ++ b) = chunkConcat a ++ chunkConcat b := by
  simp [chunkConcat, List.filterMap_append]

/-- Chunk events built from a list of parts concatenate to the parts'
concatenation. -/
theorem chunkConcat_map_chunk (l : List Str) :
    chunkConcat (l.map Event.chunk) = l.flatten := by
  induction l with
  | nil => rfl
  | cons x xs ih => simp [chunkConcat, List.filterMap_cons] at ih ⊢; exact ih

/-- The finalization block emits no chunk events. -/
theorem chunkConcat_finalizeBlock (sub : Subscription) (estimated : Nat)
    (count_tokens : Str → Nat) (mult : ℚ) (saveOk : Bool) (full : Str) :
    chunkConcat (finalizeBlock sub estimated count_tokens mult saveOk full).1 = [] := by
  unfold finalizeBlock
  cases h : deduct_sub sub (credits_of_tokens (estimated + count_tokens full) mult) with
  | error e => simp [h, chunkConcat]
  | ok sub' => cases saveOk <;> simp [h, chunkConcat]

/-- No event of the finalization block matches as a chunk. -/
theorem finalizeBlock_chunk_free (sub : Subscription) (estimated : Nat)
    (count_tokens : Str → Nat) (mult : ℚ) (saveOk : Bool) (full : Str) :
    ∀ x ∈ (finalizeBlock sub estimated count_tokens mult saveOk full).1,
      (match x with
        | Event.chunk c => some c
        | _ => none) = (none : Option Str) := by
  unfold finalizeBlock
  cases h : deduct_sub sub
      (credits_of_tokens (estimated + count_tokens full) mult) with
  | error e => simp [h]
  | ok sub' => cases saveOk <;> simp [h]

/-- C8: whenever `stream_generate` yields zero chunks before raising a
non-quota/limit error and the fallback `generate` returns content `C`,
the concatenation of the contents of all chunk events the caller observes
equals `C` exactly. -/
theorem fallback_equivalence (b : ProviderBehavior) (sub : Subscription)
    (estimated : Nat) (count_tokens : Str → Nat) (mult : ℚ)
    (msg content : Str)
    (hzero : b.streamChunks = [])
    (hexc : b.streamExc = some msg)
    (hq : isQuotaOrLimit msg = false)
    (hgen : b.generateResult = .ok content) :
    chunkConcat (event_stream b sub estimated count_tokens mult).events = content := by
  unfold event_stream
  rw [hexc, hzero, hgen]
  simp only [List.filter_nil, List.map_nil, List.isEmpty_nil, hq]
  by_cases hc : content.isEmpty
  · have hnil : content = [] := List.isEmpty_iff.mp hc
    subst hnil
    simp [chunkConcat_append, chunkConcat_finalizeBlock, chunkConcat]
    intro l x hx hmx
    rw [finalizeBlock_chunk_free sub estimated count_tokens mult b.saveOk [] x hx]
      at hmx
    exact Option.noConfusion hmx
  · simp only [hc]
    simp only [Bool.not_true, if_false, Bool.false_eq_true]
    rw [chunkConcat_append, chunkConcat_append]
    rw [chunkConcat_map_chunk]
    have h120 : (emulate_stream_text 120 content).flatten = content := by
      have := emulate_stream_text_flatten 119 content.length content (le_refl _)
      simpa using this
    rw [h120, chunkConcat_finalizeBlock]
    simp [chunkConcat]

/-- A behaviour whose stream dies immediately with a transport error and
whose fallback `generate` succeeds with `"hello"`. -/
def bFallback : ProviderBehavior :=
  { streamChunks := []
    streamExc := some "connection reset".toList
    generateResult := .ok "hello".toList
    saveOk := true }

/-- Witness for C8: the caller-observed chunk concatenation equals the
fallback content `"hello"`. -/
theorem fallback_equivalence_witness :
    chunkConcat (event_stream bFallback subTen 0 (fun _ => 0) 1).events =
      "hello".toList :=
  fallback_equivalence bFallback subTen 0 (fun _ => 0) 1
    "connection reset".toList "hello".toList rfl rfl (by decide) rfl

/-- A behaviour whose stream raises `"exhausted"` (a keyword the claim
lists but the code does not match) before any delta, with a failing
fallback. -/
def bExhausted : ProviderBehavior :=
  { streamChunks := []
    streamExc := some "exhausted".toList
    generateResult := .error "boom".toList
    saveOk := true }

/-- C7 counterexample: an error text containing only the keyword
`"exhausted"` does not short-circuit — the orchestrator still invokes the
non-streaming fallback (`generateCalls = 1`) and the terminal event is
the fallback's `llm_error` carrying the second error, not an immediate
error carrying the stream's error. -/
theorem quota_keyword_counterexample :
    (event_stream bExhausted subTen 0 (fun _ => 0) 1).generateCalls = 1 ∧
    (event_stream bExhausted subTen 0 (fun _ => 0) 1).events =
      [Event.error "llm_error".toList "boom".toList] := by
  exact ⟨rfl, rfl⟩

/-- C7 amended: the short-circuit keywords are only `"quota"` and
`"limit"` (checked case-insensitively on `str(e).lower()`; `"rate"` and
`"exhausted"` are not checked).  When the stream raises with a matching
message, the fallback is skipped entirely (`generate` is never invoked)
and the caller-observed sequence is exactly the already-relayed chunk
events followed by one terminal `provider_error` event — no delta is
retracted. -/
theorem quota_limit_short_circuit (b : ProviderBehavior) (sub : Subscription)
    (estimated : Nat) (count_tokens : Str → Nat) (mult : ℚ) (msg : Str)
    (hexc : b.streamExc = some msg) (hq : isQuotaOrLimit msg = true) :
    (event_stream b sub estimated count_tokens mult).events =
      (b.streamChunks.filter (fun c => !isBlank c)).map Event.chunk ++
        [Event.error "provider_error".toList msg] ∧
    (event_stream b sub estimated count_tokens mult).generateCalls = 0 := by
  unfold event_stream
  rw [hexc]
  simp [hq]

/-- A behaviour that relays one delta and then raises a quota error. -/
def bQuota : ProviderBehavior :=
  { streamChunks := ["par".toList]
    streamExc := some "Quota exceeded".toList
    generateResult := .ok "unused".toList
    saveOk := true }

/-- Witness for the amended C7 on a stream that relayed `"par"` and then
raised `"Quota exceeded"`. -/
theorem quota_limit_short_circuit_witness :
    (event_stream bQuota subTen 0 (fun _ => 0) 1).events =
      (bQuota.streamChunks.filter (fun c => !isBlank c)).map Event.chunk ++
        [Event.error "provider_error".toList "Quota exceeded".toList] ∧
    (event_stream bQuota subTen 0 (fun _ => 0) 1).generateCalls = 0 :=
  quota_limit_short_circuit bQuota subTen 0 (fun _ => 0) 1
    "Quota exceeded".toList rfl (by decide)

/-- A stream that completes normally without emitting any delta. -/
def bSilent : ProviderBehavior :=
  { streamChunks := []
    streamExc := none
    generateResult := .ok "hello".toList
    saveOk := true }

/-- C6 counterexample: a stream that completes normally having emitted
zero deltas does not trigger the fallback — `generate` is invoked zero
times, not exactly once as claimed. -/
theorem fallback_counterexample :
    bSilent.streamChunks = [] ∧ bSilent.streamExc = none ∧
    (event_stream bSilent subTen 0 (fun _ => 0) 1).generateCalls = 0 := by
  exact ⟨rfl, rfl, rfl⟩

/-- C6 amended: the non-streaming fallback runs exactly when the stream
raises a non-quota/limit error having relayed zero (non-blank) deltas;
in that case `generate` is invoked exactly once — non-empty content is
re-emitted as 120-character slices ahead of finalization, a failure
yields one terminal `llm_error` event carrying that error — and it is
never invoked more than once.  A stream that completes normally (even
with zero deltas), raises after a relayed delta, or raises a quota/limit
error never triggers it. -/
theorem fallback_policy (b : ProviderBehavior) (sub : Subscription)
    (estimated : Nat) (count_tokens : Str → Nat) (mult : ℚ) :
    ((event_stream b sub estimated count_tokens mult).generateCalls = 1 ↔
      ∃ msg, b.streamExc = some msg ∧ isQuotaOrLimit msg = false ∧
        b.streamChunks.filter (fun c => !isBlank c) = []) ∧
    (event_stream b sub estimated count_tokens mult).generateCalls ≤ 1 ∧
    (∀ msg, b.streamExc = some msg → isQuotaOrLimit msg = false →
      b.streamChunks.filter (fun c => !isBlank c) = [] →
      (∀ c, b.generateResult = .ok c → c ≠ [] →
        (event_stream b sub estimated count_tokens mult).events =
          (emulate_stream_text 120 c).map Event.chunk ++
            (finalizeBlock sub estimated count_tokens mult b.saveOk c).1) ∧
      (∀ e2, b.generateResult = .error e2 →
        (event_stream b sub estimated count_tokens mult).events =
          [Event.error "llm_error".toList e2])) := by
  unfold event_stream
  cases hexc : b.streamExc with
  | none =>
      rcases hfb : finalizeBlock sub estimated count_tokens mult b.saveOk
          (b.streamChunks.filter (fun c => !isBlank c)).flatten with ⟨evs, fs⟩
      simp [hfb]
  | some msg =>
      by_cases hq : isQuotaOrLimit msg
      · simp only [hq, if_true]
        refine ⟨?_, ?_, ?_⟩
        · simp
          intro hfalse
          simp [hq] at hfalse
        · simp
        · intro msg' heq hq' hfil
          injection heq with h
          subst h
          simp [hq] at hq'
      · simp only [Bool.not_eq_true] at hq
        by_cases he : (b.streamChunks.filter (fun c => !isBlank c)).isEmpty
        · have he' : b.streamChunks.filter (fun c => !isBlank c) = [] :=
            List.isEmpty_iff.mp he
          cases hg : b.generateResult with
          | error e2 =>
              simp [hq, he', hg]
          | ok c =>
              by_cases hce : c.isEmpty
              · have hc' : c = [] := List.isEmpty_iff.mp hce
                subst hc'
                rcases hfb : finalizeBlock sub estimated count_tokens mult
                    b.saveOk (b.streamChunks.filter (fun c => !isBlank c)).flatten
                  with ⟨evs, fs⟩
                simp [hq, he', hg, hfb]
              · rcases hfb : finalizeBlock sub estimated count_tokens mult
                    b.saveOk c with ⟨evs, fs⟩
                simp [hq, he', hg, hce, hfb]
        · have he' : ¬ (b.streamChunks.filter (fun c => !isBlank c)) = [] := by
            intro hcontra
            rw [hcontra] at he
            exact he rfl
          rcases hfb : finalizeBlock sub estimated count_tokens mult b.saveOk
              (b.streamChunks.filter (fun c => !isBlank c)).flatten with ⟨evs, fs⟩
          simp [hq, he, hfb, he']

/-- Witness for the amended C6 at `bFallback` (stream raises
`"connection reset"` with zero deltas, fallback succeeds with
`"hello"`): `generate` runs exactly once. -/
theorem fallback_policy_witness :
    (event_stream bFallback subTen 0 (fun _ => 0) 1).generateCalls = 1 :=
  (fallback_policy bFallback subTen 0 (fun _ => 0) 1).1.mpr
    ⟨"connection reset".toList, rfl, by decide, rfl⟩

/-- `terminalCount` distributes over append. -/
theorem terminalCount_append (a b : List Event) :
    terminalCount (a ++ b) = terminalCount a + terminalCount b := by
  simp [terminalCount, List.filter_append]

/-- Chunk events are never terminal, so they contribute no count. -/
theorem terminalCount_map_chunk (l : List Str) :
    terminalCount (l.map Event.chunk) = 0 := by
  induction l with
  | nil => rfl
  | cons x xs ih =>
      simp [terminalCount, List.filter_cons, Event.isTerminal] at ih ⊢

/-- Every event of a chunk-only list is non-terminal. -/
theorem nonterminal_of_mem_map_chunk (l : List Str) :
    ∀ e ∈ l.map Event.chunk, e.isTerminal = false := by
  intro e he
  obtain ⟨c, _, rfl⟩ := List.mem_map.mp he
  rfl

/-- The finalization block emits nothing exactly when it raises: either
the ledger rejects the deduction or a storage write fails. -/
theorem finalizeBlock_empty_iff (sub : Subscription) (estimated : Nat)
    (count_tokens : Str → Nat) (mult : ℚ) (saveOk : Bool) (full : Str) :
    (finalizeBlock sub estimated count_tokens mult saveOk full).1 = [] ↔
      (sub.credits_remaining <
          credits_of_tokens (estimated + count_tokens full) mult ∨
        saveOk = false) := by
  unfold finalizeBlock deduct_sub
  by_cases hlt : sub.credits_remaining <
      credits_of_tokens (estimated + count_tokens full) mult
  · simp [hlt]
  · cases saveOk <;> simp [hlt]

/-- The finalization block emits either nothing or a single `done`. -/
theorem finalizeBlock_shape (sub : Subscription) (estimated : Nat)
    (count_tokens : Str → Nat) (mult : ℚ) (saveOk : Bool) (full : Str) :
    (finalizeBlock sub estimated count_tokens mult saveOk full).1 = [] ∨
    ∃ t cu cr, (finalizeBlock sub estimated count_tokens mult saveOk full).1 =
      [Event.done t cu cr] := by
  unfold finalizeBlock
  cases h : deduct_sub sub
      (credits_of_tokens (estimated + count_tokens full) mult) with
  | error e => simp [h]
  | ok sub' => cases saveOk <;> simp [h]

/-- Terminal-event accounting for a run shaped "chunk events, then the
finalization block": at most one terminal event, never before the last
position, and zero exactly when finalization raises. -/
theorem chunk_finalize_analysis (l : List Str) (sub : Subscription)
    (estimated : Nat) (count_tokens : Str → Nat) (mult : ℚ) (saveOk : Bool)
    (full : Str) :
    terminalCount (l.map Event.chunk ++
        (finalizeBlock sub estimated count_tokens mult saveOk full).1) ≤ 1 ∧
    (∀ e ∈ (l.map Event.chunk ++
        (finalizeBlock sub estimated count_tokens mult saveOk full).1).dropLast,
      e.isTerminal = false) ∧
    (terminalCount (l.map Event.chunk ++
        (finalizeBlock sub estimated count_tokens mult saveOk full).1) = 0 ↔
      (sub.credits_remaining <
          credits_of_tokens (estimated + count_tokens full) mult ∨
        saveOk = false)) := by
  rcases finalizeBlock_shape sub estimated count_tokens mult saveOk full with
    hnil | ⟨t, cu, cr, hdone⟩
  · rw [hnil]
    refine ⟨?_, ?_, ?_⟩
    · rw [terminalCount_append, terminalCount_map_chunk]
      simp [terminalCount]
    · intro e he
      exact nonterminal_of_mem_map_chunk l e
        (List.dropLast_subset _ (by simpa using he))
    · have hcond := (finalizeBlock_empty_iff sub estimated count_tokens mult
          saveOk full).mp hnil
      rw [terminalCount_append, terminalCount_map_chunk]
      simp [terminalCount, hcond]
  · rw [hdone]
    refine ⟨?_, ?_, ?_⟩
    · rw [terminalCount_append, terminalCount_map_chunk]
      simp [terminalCount, Event.isTerminal]
    · intro e he
      rw [show (l.map Event.chunk ++ [Event.done t cu cr]).dropLast =
            l.map Event.chunk by simp] at he
      exact nonterminal_of_mem_map_chunk l e he
    · rw [terminalCount_append, terminalCount_map_chunk]
      constructor
      · intro h0
        simp [terminalCount, Event.isTerminal] at h0
      · intro hraise
        have := (finalizeBlock_empty_iff sub estimated count_tokens mult
            saveOk full).mpr hraise
        rw [hdone] at this
        exact absurd this (by simp)

/-- Whether control reaches the finalization block: the stream completed
normally, or raised a non-quota/limit error after relaying at least one
delta, or raised such an error with no delta and the single fallback
`generate` call did not raise. -/
def reaches_finalize (b : ProviderBehavior) : Bool :=
  match b.streamExc with
  | none => true
  | some msg =>
      if isQuotaOrLimit msg then false
      else if !(b.streamChunks.filter (fun c => !isBlank c)).isEmpty then true
      else match b.generateResult with
           | .error _ => false
           | .ok _ => true

/-- The `full_response` text the finalization block sees. -/
def final_full_response (b : ProviderBehavior) : Str :=
  let emitted := b.streamChunks.filter (fun c => !isBlank c)
  match b.streamExc with
  | none => emitted.flatten
  | some _ =>
      if !emitted.isEmpty then emitted.flatten
      else match b.generateResult with
           | .ok c => if c.isEmpty then emitted.flatten else c
           | .error _ => emitted.flatten

/-- Whether the finalization block raises: the ledger rejects the
deduction, or a storage write fails. -/
def finalize_raises (sub : Subscription) (estimated : Nat)
    (count_tokens : Str → Nat) (mult : ℚ) (saveOk : Bool) (full : Str) : Prop :=
  sub.credits_remaining < credits_of_tokens (estimated + count_tokens full) mult ∨
    saveOk = false

/-- C3 amended: every run of the stream generator yields at most one
terminal (`done`/`error`) event and never yields one before the last
position; but the count is zero — the stream closes with **no** terminal
event — exactly when control reaches the finalization block and an
exception is raised there (ledger rejection or storage failure), because
`except Exception as e: print(...)` swallows it.  On every other path
(success, quota/limit short-circuit, fallback failure, fallback
success) the caller observes exactly one terminal event, and it is
last. -/
theorem terminal_event_discipline (b : ProviderBehavior) (sub : Subscription)
    (estimated : Nat) (count_tokens : Str → Nat) (mult : ℚ) :
    terminalCount (event_stream b sub estimated count_tokens mult).events ≤ 1 ∧
    (∀ e ∈ (event_stream b sub estimated count_tokens mult).events.dropLast,
      e.isTerminal = false) ∧
    (terminalCount (event_stream b sub estimated count_tokens mult).events = 0 ↔
      reaches_finalize b = true ∧
        finalize_raises sub estimated count_tokens mult b.saveOk
          (final_full_response b)) := by
  unfold event_stream reaches_finalize final_full_response finalize_raises
  cases hexc : b.streamExc with
  | none =>
      rcases hfb : finalizeBlock sub estimated count_tokens mult b.saveOk
          (b.streamChunks.filter (fun c => !isBlank c)).flatten with ⟨evs, fs⟩
      have h := chunk_finalize_analysis
        (b.streamChunks.filter (fun c => !isBlank c)) sub estimated
        count_tokens mult b.saveOk
        (b.streamChunks.filter (fun c => !isBlank c)).flatten
      rw [hfb] at h
      simpa [hfb] using h
  | some msg =>
      by_cases hq : isQuotaOrLimit msg
      · simp only [hq, if_true]
        refine ⟨?_, ?_, ?_⟩
        · rw [terminalCount_append, terminalCount_map_chunk]
          simp [terminalCount, Event.isTerminal]
        · intro e he
          rw [show ((b.streamChunks.filter (fun c => !isBlank c)).map
                Event.chunk ++
                [Event.error "provider_error".toList msg]).dropLast =
              (b.streamChunks.filter (fun c => !isBlank c)).map Event.chunk
              by simp] at he
          exact nonterminal_of_mem_map_chunk _ e he
        · rw [terminalCount_append, terminalCount_map_chunk]
          simp [terminalCount, Event.isTerminal]
      · simp only [Bool.not_eq_true] at hq
        by_cases he : (b.streamChunks.filter (fun c => !isBlank c)).isEmpty
        · have he' : b.streamChunks.filter (fun c => !isBlank c) = [] :=
            List.isEmpty_iff.mp he
          cases hg : b.generateResult with
          | error e2 =>
              simp [hq, he', hg, terminalCount_append, terminalCount,
                    Event.isTerminal]
          | ok c =>
              by_cases hce : c.isEmpty
              · have hc' : c = [] := List.isEmpty_iff.mp hce
                subst hc'
                rcases hfb : finalizeBlock sub estimated count_tokens mult
                    b.saveOk [] with ⟨evs, fs⟩
                have h := chunk_finalize_analysis ([] : List Str) sub estimated
                  count_tokens mult b.saveOk []
                rw [hfb] at h
                simpa [hq, he', hg, hfb] using h
              · rcases hfb : finalizeBlock sub estimated count_tokens mult
                    b.saveOk c with ⟨evs, fs⟩
                have h := chunk_finalize_analysis (emulate_stream_text 120 c)
                  sub estimated count_tokens mult b.saveOk c
                rw [hfb] at h
                simpa [hq, he', hg, hce, hfb] using h
        · have he' : ¬ (b.streamChunks.filter (fun c => !isBlank c)) = [] := by
            intro hcontra
            rw [hcontra] at he
            exact he rfl
          rcases hfb : finalizeBlock sub estimated count_tokens mult b.saveOk
              (b.streamChunks.filter (fun c => !isBlank c)).flatten
            with ⟨evs, fs⟩
          have h := chunk_finalize_analysis
            (b.streamChunks.filter (fun c => !isBlank c)) sub estimated
            count_tokens mult b.saveOk
            (b.streamChunks.filter (fun c => !isBlank c)).flatten
          rw [hfb] at h
          simpa [hq, he, he', hfb] using h

/-- A stream that relays one delta and completes, followed by a failing
storage write during finalization. -/
def bSaveFail : ProviderBehavior :=
  { streamChunks := ["hi".toList]
    streamExc := none
    generateResult := .ok "unused".toList
    saveOk := false }

/-- C3 counterexample: an admitted request (ample credits) whose stream
succeeds but whose finalization raises — here a storage write fails after
the deduction committed — produces a `chunk` event and then **no**
terminal event at all: the stream closes silently, contradicting the
claimed exactly-one-terminal-event guarantee for exceptions during
finalization. -/
theorem terminal_event_counterexample :
    (event_stream bSaveFail subTen 1 (fun _ => 0) 1).events =
      [Event.chunk "hi".toList] ∧
    terminalCount (event_stream bSaveFail subTen 1 (fun _ => 0) 1).events = 0 := by
  have h1 : credits_of_tokens 1 1 = 1 := by
    unfold credits_of_tokens pyInt
    norm_num
  constructor
  · simp [event_stream, bSaveFail, subTen, finalizeBlock, deduct_sub, h1]
    decide
  · simp [event_stream, bSaveFail, subTen, finalizeBlock, deduct_sub, h1,
          terminalCount, Event.isTerminal]

/-- Witness for the amended C3: a quota-aborted run observes at most one
terminal event. -/
theorem terminal_event_discipline_witness :
    terminalCount (event_stream bQuota subTen 0 (fun _ => 0) 1).events ≤ 1 :=
  (terminal_event_discipline bQuota subTen 0 (fun _ => 0) 1).1

end AiFiesta
